import Mathlib

/-!
Shallow embedding of the Arduino-DistanceMeasurement repository
(namespace CNEGR in the C++ sources), covering the Proximity State
Machine (`src/StateMachine.cpp` / `src/StateMachine.h`) and the
Ranging Driver (`src/DistanceSensor.cpp`).

Machine integers are modelled as `Nat` (for `uint32_t`) and `Int`
(for `int32_t`) with explicit reduction modulo `2^32` wherever the
C++ arithmetic can wrap.
-/

namespace CNEGR

/-- Result codes from `Result.h` (the subset the core exercises; every
further enumerator behaves like the `default` arm of each `switch`,
which `RESULT_OTHER` stands for). -/
inductive Result where
  | RESULT_OK
  | RESULT_NOT_READY
  | RESULT_BAD_PARAM
  | RESULT_BUSY
  | RESULT_DEV_ERR
  | RESULT_TIMEOUT
  | RESULT_OTHER
  deriving DecidableEq

/-- Enum `StateMachine::State` from `StateMachine.h`. -/
inductive State where
  | Invalid
  | Initializing
  | Idle
  | Error
  | SubjectApproaching
  | SubjectRetreating
  deriving DecidableEq

/-- Enum `StateMachine::MovingDirection` from `StateMachine.h`. -/
inductive MovingDirection where
  | Stopped
  | Forward
  | Backward
  deriving DecidableEq

/-- The commands the state machine pushes to the `ITrafficLight`
collaborator: `SetAllLightsOff`, `TurnOn(Green/Yellow/Red)`, and
`PerformLightsTest`. -/
inductive LightAct where
  | AllOff
  | Green
  | Yellow
  | Red
  | Test
  deriving DecidableEq

/-- Ways execution stops instead of returning: a failed `assert`
(fatal contract violation) or the `Reset()` restart primitive. -/
inductive Halt where
  | assertFail
  | reset
  deriving DecidableEq

/-- Reinterpret a `uint32_t` value (a `Nat`, reduced mod `2^32`) as the
`int32_t` with the same two's-complement bit pattern. -/
def toInt32 (n : Nat) : Int :=
  if n % 2 ^ 32 < 2 ^ 31 then ((n % 2 ^ 32 : Nat) : Int)
  else ((n % 2 ^ 32 : Nat) : Int) - 2 ^ 32

/-- Wrap an integer into the `int32_t` range `[-2^31, 2^31)`
(two's-complement arithmetic result). -/
def wrap32 (x : Int) : Int := (x + 2 ^ 31) % 2 ^ 32 - 2 ^ 31

/-- Unsigned 32-bit subtraction `a - b` (wraps modulo `2^32`). -/
def u32sub (a b : Nat) : Nat := (2 ^ 32 + a % 2 ^ 32 - b % 2 ^ 32) % 2 ^ 32

/-- The `StateMachine` object of `StateMachine.h`: its member fields
(the two collaborator pointers are modelled only by whether they are
non-null, which is all `Init` inspects). -/
structure StateMachine where
  _initDone : Bool
  _state : State
  _previousState : State
  _previousDistance : Nat
  _previousTime : Nat
  _maxDistanceThresholdMm : Nat
  _farThresholdMm : Nat
  _nearThresholdMm : Nat
  _movingDistanceDetectionThresholdMm : Nat
  _movingTimeThresholdMs : Nat
  _holdingTimeThresholdMs : Nat
  deriving DecidableEq

/-- Struct `StateMachine::Config` from `StateMachine.h` (pointers modelled by
their non-nullness, which is all `Init` asserts on). -/
structure Config where
  distanceSensorNonNull : Bool
  trafficLightNonNull : Bool
  maxDistanceThresholdMm : Nat
  farThresholdMm : Nat
  nearThresholdMm : Nat
  movingDistanceDetectionThresholdMm : Nat
  movingTimeThresholdMs : Nat
  holdingTimeThresholdMs : Nat
  deriving DecidableEq

/-- The `StateMachine::StateMachine()` constructor (initializer list). -/
def StateMachine.ctor : StateMachine :=
  { _initDone := false
    _state := State.Invalid
    _previousState := State.Invalid
    _previousDistance := 2 ^ 32 - 1
    _previousTime := 0
    _maxDistanceThresholdMm := 0
    _farThresholdMm := 0
    _nearThresholdMm := 0
    _movingDistanceDetectionThresholdMm := 0
    _movingTimeThresholdMs := 0
    _holdingTimeThresholdMs := 0 }

/-- Member function `StateMachine::GetMovingDirection` (StateMachine.cpp:308-321).
`abs` is the Arduino macro `((x)>0?(x):-(x))` on `int32_t`, compared
against the `uint32_t` threshold after the usual conversion; for every
`int32_t` input (including `INT32_MIN`, whose negation wraps back to
`INT32_MIN` and converts to `2^31`) that comparison coincides with
`Int.natAbs` against the threshold. -/
def StateMachine.GetMovingDirection (sm : StateMachine) (deltaT : Nat)
    (deltaD : Int) : MovingDirection :=
  if deltaT > sm._movingTimeThresholdMs then
    if deltaD.natAbs > sm._movingDistanceDetectionThresholdMm then
      if deltaD > 0 then MovingDirection.Backward else MovingDirection.Forward
    else
      MovingDirection.Stopped
  else
    MovingDirection.Stopped

/-- Member function `StateMachine::SetTrafficLights` (StateMachine.cpp:272-297),
returning which command is pushed to the traffic light. -/
def StateMachine.SetTrafficLights (sm : StateMachine) (distance : Nat) :
    LightAct :=
  if distance > sm._maxDistanceThresholdMm then LightAct.AllOff
  else if distance > sm._farThresholdMm then LightAct.Green
  else if distance > sm._nearThresholdMm then LightAct.Yellow
  else LightAct.Red

/-- Member function `StateMachine::Init` (StateMachine.cpp:43-63): three `assert`s, then the
configuration is copied verbatim and the machine enters `Initializing`. -/
def StateMachine.Init (sm : StateMachine) (configuration : Config) :
    Except Halt StateMachine :=
  if sm._initDone = true then Except.error Halt.assertFail
  else if configuration.distanceSensorNonNull = false then Except.error Halt.assertFail
  else if configuration.trafficLightNonNull = false then Except.error Halt.assertFail
  else
    Except.ok
      { sm with
        _maxDistanceThresholdMm := configuration.maxDistanceThresholdMm
        _farThresholdMm := configuration.farThresholdMm
        _nearThresholdMm := configuration.nearThresholdMm
        _movingDistanceDetectionThresholdMm :=
          configuration.movingDistanceDetectionThresholdMm
        _movingTimeThresholdMs := configuration.movingTimeThresholdMs
        _holdingTimeThresholdMs := configuration.holdingTimeThresholdMs
        _state := State.Initializing
        _previousDistance := 2 ^ 32 - 1
        _previousTime := 0
        _initDone := true }

/-- Member function `StateMachine::MeasureDistance` (StateMachine.cpp:198-240): `r` is the
result the `IDistanceSensor` collaborator returned and `d` the value it wrote
into the out parameter. `RESULT_TIMEOUT` is absorbed into the sample value
`UINT32_MAX`; `RESULT_DEV_ERR` calls `Reset()`; `RESULT_NOT_READY` and every
unrecognized code fail an `assert`. -/
def StateMachine.MeasureDistance (r : Result) (d : Nat) : Except Halt Nat :=
  match r with
  | Result.RESULT_OK => Except.ok (d % 2 ^ 32)
  | Result.RESULT_TIMEOUT => Except.ok (2 ^ 32 - 1)
  | Result.RESULT_DEV_ERR => Except.error Halt.reset
  | Result.RESULT_NOT_READY => Except.error Halt.assertFail
  | _ => Except.error Halt.assertFail

/-- The `deltaD` computation from `StateMachine::Update`
(StateMachine.cpp:81-83): `uint32_t` subtraction wraps mod `2^32`, the result
is reinterpreted as `int32_t`, and in the second branch the `int32_t`
multiplication by `-1` again wraps into the `int32_t` range. -/
def computeDeltaD (distance _previousDistance : Nat) : Int :=
  if distance > _previousDistance then
    toInt32 (u32sub distance _previousDistance)
  else
    wrap32 (toInt32 (u32sub _previousDistance distance) * (-1))

/-- The environment one call of `StateMachine::Update` observes: the sensor
collaborator's result code and out-param value, the two `millis()` readings
(lines 77 and 80 call `millis()` separately), and the result of
`ITrafficLight::PerformLightsTest`. -/
structure Env where
  sensorResult : Result
  sensorDistance : Nat
  millis1 : Nat
  millis2 : Nat
  lightsTest : Result
  deriving DecidableEq

/-- Member function `StateMachine::Update` (StateMachine.cpp:70-192). Returns the successor
machine and the traffic-light commands issued during the cycle (in order), or
the way execution halted. -/
def StateMachine.Update (sm : StateMachine) (env : Env) :
    Except Halt (StateMachine × List LightAct) :=
  if sm._initDone = false then Except.error Halt.assertFail
  else
    match StateMachine.MeasureDistance env.sensorResult env.sensorDistance with
    | Except.error h => Except.error h
    | Except.ok distance =>
      let time := env.millis1 % 2 ^ 32
      let deltaT := u32sub env.millis2 sm._previousTime
      let deltaD := computeDeltaD distance sm._previousDistance
      let movingDirection := sm.GetMovingDirection deltaT deltaD
      let sm1 := { sm with _previousDistance := distance }
      match sm._state with
      | State.Initializing =>
          let nextState :=
            if env.lightsTest = Result.RESULT_OK then State.Idle else State.Error
          Except.ok
            ({ sm1 with _previousTime := time, _previousState := sm._state,
                        _state := nextState }, [LightAct.Test])
      | State.Idle =>
          match movingDirection with
          | MovingDirection.Stopped =>
              Except.ok
                ({ sm1 with _previousTime := time, _previousState := sm._state,
                            _state := State.Idle }, [LightAct.AllOff])
          | MovingDirection.Backward =>
              Except.ok
                ({ sm1 with _previousTime := time, _previousState := sm._state,
                            _state := State.SubjectRetreating }, [])
          | MovingDirection.Forward =>
              Except.ok
                ({ sm1 with _previousTime := time, _previousState := sm._state,
                            _state := State.SubjectApproaching }, [])
      | State.SubjectApproaching =>
          let tier := sm.SetTrafficLights distance
          match movingDirection with
          | MovingDirection.Stopped =>
              if deltaT > sm._holdingTimeThresholdMs then
                Except.ok
                  ({ sm1 with _previousState := sm._state, _state := State.Idle },
                   [tier, LightAct.AllOff])
              else
                Except.ok
                  ({ sm1 with _previousState := sm._state,
                              _state := State.SubjectApproaching }, [tier])
          | MovingDirection.Backward =>
              Except.ok
                ({ sm1 with _previousTime := time, _previousState := sm._state,
                            _state := State.SubjectRetreating }, [tier])
          | MovingDirection.Forward =>
              Except.ok
                ({ sm1 with _previousTime := time, _previousState := sm._state,
                            _state := State.SubjectApproaching }, [tier])
      | State.SubjectRetreating =>
          let tier := sm.SetTrafficLights distance
          match movingDirection with
          | MovingDirection.Stopped =>
              if deltaT > sm._holdingTimeThresholdMs then
                Except.ok
                  ({ sm1 with _previousState := sm._state, _state := State.Idle },
                   [tier, LightAct.AllOff])
              else
                Except.ok
                  ({ sm1 with _previousState := sm._state,
                              _state := State.SubjectRetreating }, [tier])
          | MovingDirection.Backward =>
              Except.ok
                ({ sm1 with _previousTime := time, _previousState := sm._state,
                            _state := State.SubjectRetreating }, [tier])
          | MovingDirection.Forward =>
              Except.ok
                ({ sm1 with _previousTime := time, _previousState := sm._state,
                            _state := State.SubjectApproaching }, [tier])
      | State.Invalid =>
          Except.ok
            ({ sm1 with _previousState := sm._state,
                        _state := State.Error }, [])
      | State.Error => Except.error Halt.assertFail

/-- Enum `SignalPolarity` from `CommonDefines.h`. -/
inductive SignalPolarity where
  | ActiveHigh
  | ActiveLow
  deriving DecidableEq

/-- The `DistanceSensor` object of `DistanceSensor.h` (the `_name` buffer is
abstracted away; pins are `uint8_t` values). -/
structure DistanceSensor where
  _initDone : Bool
  _triggerPin : Nat
  _echoPin : Nat
  _minTriggerPulseDurationUs : Nat
  _minDistanceMm : Nat
  _maxDistanceMm : Nat
  _triggerPolarity : SignalPolarity
  _echoPolarity : SignalPolarity
  deriving DecidableEq

/-- Struct `IDistanceSensor::Config` (`IDistanceSensor.h`): the name pointer is
modelled by its non-nullness, which is all `Init` checks. -/
structure SensorConfig where
  nameNonNull : Bool
  triggerPin : Nat
  echoPin : Nat
  deriving DecidableEq

/-- The `DistanceSensor` constructor (DistanceSensor.cpp:16-32):
`_initDone` starts `false` and the pins start at `NOT_A_PIN` (modelled 0). -/
def DistanceSensor.ctor (minTriggerPulseDurationUs minDistanceMm maxDistanceMm : Nat)
    (triggerPolarity echoPolarity : SignalPolarity) : DistanceSensor :=
  { _initDone := false
    _triggerPin := 0
    _echoPin := 0
    _minTriggerPulseDurationUs := minTriggerPulseDurationUs
    _minDistanceMm := minDistanceMm
    _maxDistanceMm := maxDistanceMm
    _triggerPolarity := triggerPolarity
    _echoPolarity := echoPolarity }

/-- Member function `DistanceSensor::Init` (DistanceSensor.cpp:51-80). -/
def DistanceSensor.Init (ds : DistanceSensor) (configuration : SensorConfig) :
    Result × DistanceSensor :=
  if ds._initDone = true then (Result.RESULT_BUSY, ds)
  else if configuration.nameNonNull = false then (Result.RESULT_BAD_PARAM, ds)
  else
    (Result.RESULT_OK,
     { ds with _triggerPin := configuration.triggerPin % 2 ^ 8,
               _echoPin := configuration.echoPin % 2 ^ 8,
               _initDone := true })

/-- Member function `DistanceSensor::Deinit` (DistanceSensor.cpp:93-105). -/
def DistanceSensor.Deinit (ds : DistanceSensor) : DistanceSensor :=
  { ds with _initDone := false }

/-- Free function `SpeedOfSound` (DistanceSensor.cpp:151-154), in m/s. The source computes
in 32-bit `float`; modelled over `ℚ` with the same formula (ideal arithmetic:
claims depending on `float` rounding are not settled against this model). -/
def SpeedOfSound (ambientTemperature : Nat) : ℚ :=
  3314 / 10 + (6 / 10) * (ambientTemperature : ℚ) / 10

/-- Member function `DistanceSensor::Time2Distance` (DistanceSensor.cpp:156-164). The cast of
the nonnegative `float` result to `uint32_t` truncates toward zero, i.e.
`Int.floor`; `float` rounding idealized as exact rational arithmetic. -/
def Time2Distance (ambientTemperature timeUs : Nat) : Nat :=
  (Int.floor (((timeUs : ℚ) / 1000 / 1000 * (SpeedOfSound ambientTemperature / 2)) * 1000)).toNat

/-- Static function `Distance2Time` (DistanceSensor.cpp:196-204), same `float`-as-`ℚ`
idealization as `Time2Distance`. -/
def Distance2Time (ambientTemperature distanceMm : Nat) : Nat :=
  (Int.floor (((distanceMm : ℚ) / 1000 / (SpeedOfSound ambientTemperature / 2)) * 1000 * 1000)).toNat

/-- The observable behavior of the echo line during one ranging attempt:
no rising edge within the deadline, a rising edge but no falling edge within
the second deadline, or a full echo pulse of the given width (µs). -/
inductive Echo where
  | noRise
  | noFall
  | pulse (widthUs : Nat)
  deriving DecidableEq

/-- The externally visible steps of the ranging protocol
(`TriggerMeasurement`'s trigger pulse, `ReadDistance`'s echo polling). -/
inductive ProtocolStep where
  | triggerPulse
  | echoPoll
  deriving DecidableEq

/-- Member function `DistanceSensor::ReadDistance` (DistanceSensor.cpp:213-284), with the two
busy-poll loops abstracted by the observable `Echo` outcome. The out
parameter is written only on success. -/
def DistanceSensor.ReadDistance (ds : DistanceSensor) (ambientTemperature : Nat)
    (echo : Echo) (distance : Nat) : Result × Nat :=
  match echo with
  | Echo.noRise => (Result.RESULT_TIMEOUT, distance)
  | Echo.noFall => (Result.RESULT_TIMEOUT, distance)
  | Echo.pulse widthUs =>
      (Result.RESULT_OK, Time2Distance ambientTemperature (widthUs % 2 ^ 32))

/-- Member function `DistanceSensor::MeasureDistance(uint32_t, uint32_t&)`
(DistanceSensor.cpp:132-145): the `NotReady` guard, then the trigger pulse,
then `distance = 0`, then `ReadDistance`. Returns the result code, the final
out-param value, and the protocol steps executed on the hardware. -/
def DistanceSensor.MeasureDistanceAtTemp (ds : DistanceSensor)
    (ambientTemperature : Nat) (echo : Echo) (distance : Nat) :
    Result × Nat × List ProtocolStep :=
  if ds._initDone = false then (Result.RESULT_NOT_READY, distance, [])
  else
    let rd := DistanceSensor.ReadDistance ds ambientTemperature echo 0
    (rd.1, rd.2, [ProtocolStep.triggerPulse, ProtocolStep.echoPoll])

/-- Member function `DistanceSensor::MeasureDistance(uint32_t&)` (DistanceSensor.cpp:116-120):
forwards to the temperature-compensated overload with the constant
`ambientTemperature = 20 * 10` deci-degrees Celsius. -/
def DistanceSensor.MeasureDistance (ds : DistanceSensor) (echo : Echo)
    (distance : Nat) : Result × Nat × List ProtocolStep :=
  ds.MeasureDistanceAtTemp (20 * 10) echo distance

/-- One state-machine measurement taken through a concrete `DistanceSensor`:
`StateMachine::MeasureDistance` invokes the collaborator's one-argument
`MeasureDistance` overload (StateMachine.cpp:202) and dispatches on its
result. -/
def StateMachine.MeasureDistanceVia (ds : DistanceSensor) (echo : Echo) :
    Except Halt Nat :=
  let r := ds.MeasureDistance echo 0
  StateMachine.MeasureDistance r.1 r.2.1

/-- The same composition with the temperature made explicit, for stating that
the state machine always samples at the fixed 200 deci-degree temperature. -/
def StateMachine.MeasureDistanceViaAtTemp (ds : DistanceSensor)
    (ambientTemperature : Nat) (echo : Echo) : Except Halt Nat :=
  let r := ds.MeasureDistanceAtTemp ambientTemperature echo 0
  StateMachine.MeasureDistance r.1 r.2.1

/-- Decidable equality on `Except`, so that concrete runs of the model can be
checked by `decide`. -/
instance decEqExcept {E A : Type} [DecidableEq E] [DecidableEq A] :
    DecidableEq (Except E A) := fun a b =>
  match a, b with
  | Except.ok x, Except.ok y =>
      if h : x = y then Decidable.isTrue (by rw [h])
      else Decidable.isFalse (by simp [h])
  | Except.error x, Except.error y =>
      if h : x = y then Decidable.isTrue (by rw [h])
      else Decidable.isFalse (by simp [h])
  | Except.ok _, Except.error _ => Decidable.isFalse (by simp)
  | Except.error _, Except.ok _ => Decidable.isFalse (by simp)

/-- A representative configured state machine, with the thresholds the spec
uses as its worked example (`near=100mm, far=300mm, maxCutoff=2000mm`). -/
def smDemo : StateMachine :=
  { StateMachine.ctor with
      _maxDistanceThresholdMm := 2000
      _farThresholdMm := 300
      _nearThresholdMm := 100
      _movingDistanceDetectionThresholdMm := 50
      _movingTimeThresholdMs := 100
      _holdingTimeThresholdMs := 3000 }

/-- A proximity configuration violating the `near < far` invariant
(`near = 300 ≥ far = 100`), with valid collaborator pointers. -/
def badCfg : Config :=
  { distanceSensorNonNull := true
    trafficLightNonNull := true
    maxDistanceThresholdMm := 2000
    farThresholdMm := 100
    nearThresholdMm := 300
    movingDistanceDetectionThresholdMm := 5
    movingTimeThresholdMs := 100
    holdingTimeThresholdMs := 3000 }

/-- A machine whose current state is `State::Error` (`Fault`). -/
def smError : StateMachine := { smDemo with _initDone := true, _state := State.Error }

/-- A machine sitting in `SubjectApproaching` with the motion timer reset at
time 0 and previous sample 500 mm. -/
def smApp : StateMachine :=
  { smDemo with _initDone := true, _state := State.SubjectApproaching,
                _previousTime := 0, _previousDistance := 500 }

/-- An update-cycle environment where the sensor reads 500 mm successfully. -/
def envOk : Env :=
  { sensorResult := Result.RESULT_OK
    sensorDistance := 500
    millis1 := 1000
    millis2 := 1000
    lightsTest := Result.RESULT_OK }

/-- An update-cycle environment where the sensor reports a timeout. -/
def envTimeout : Env :=
  { sensorResult := Result.RESULT_TIMEOUT
    sensorDistance := 0
    millis1 := 1000
    millis2 := 1000
    lightsTest := Result.RESULT_OK }

/-- An environment whose repeated 500 mm reading arrives 4000 ms after the
motion timer was last reset (beyond `smDemo`'s 3000 ms holding threshold). -/
def envHold : Env :=
  { sensorResult := Result.RESULT_OK
    sensorDistance := 500
    millis1 := 4000
    millis2 := 4000
    lightsTest := Result.RESULT_OK }

/-- A freshly constructed (never initialized) distance sensor. -/
def dsFresh : DistanceSensor :=
  DistanceSensor.ctor 10 20 4000 SignalPolarity.ActiveHigh SignalPolarity.ActiveHigh

/-- The same sensor after a successful `Init`. -/
def dsReady : DistanceSensor :=
  (dsFresh.Init { nameNonNull := true, triggerPin := 2, echoPin := 3 }).2

theorem wrap32_eq_of_mem (x : Int) (h1 : -(2 ^ 31) ≤ x) (h2 : x < 2 ^ 31) :
    wrap32 x = x := by
  unfold wrap32
  rw [Int.emod_eq_of_lt (by omega) (by omega)]
  omega

theorem toInt32_mem (n : Nat) : -(2 ^ 31) ≤ toInt32 n ∧ toInt32 n < 2 ^ 31 := by
  unfold toInt32
  have h : n % 2 ^ 32 < 2 ^ 32 := Nat.mod_lt _ (by norm_num)
  split_ifs with hc <;> constructor <;> omega

theorem u32sub_eq (a b : Nat) (hb : b ≤ a) (ha : a < 2 ^ 32) :
    u32sub a b = a - b := by
  unfold u32sub
  rw [Nat.mod_eq_of_lt ha, Nat.mod_eq_of_lt (lt_of_le_of_lt hb ha)]
  omega

theorem toInt32_of_big (n : Nat) (h1 : 2 ^ 31 ≤ n) (h2 : n < 2 ^ 32) :
    toInt32 n = (n : Int) - 2 ^ 32 := by
  unfold toInt32
  rw [Nat.mod_eq_of_lt h2, if_neg (by omega)]

theorem time2Distance_lt (w : Nat) (hw : w < 2 ^ 32) :
    Time2Distance 200 w + 1 < 2 ^ 31 := by
  unfold Time2Distance
  have hflt : Int.floor (((w : ℚ) / 1000 / 1000 * (SpeedOfSound 200 / 2)) * 1000) <
      (2 ^ 31 - 1 : ℤ) := by
    rw [Int.floor_lt]
    have hwq : (w : ℚ) < 2 ^ 32 := by exact_mod_cast hw
    unfold SpeedOfSound
    push_cast
    nlinarith
  omega

/-- Claim C1: motion direction (`Stationary`/`Approaching`/`Retreating` in the
spec are `Stopped`/`Forward`/`Backward` in the code) is `Stopped` unless both
`deltaT > movingTimeThresholdMs` and `|deltaD| > movingDistanceDetectionThresholdMm`
hold; when both hold it is `Backward` (retreating) for `deltaD > 0` and
`Forward` (approaching) otherwise; the time guard dominates the distance
guard; and `deltaD = 0` always yields `Stopped`. -/
theorem C1_moving_direction (sm : StateMachine) (deltaT : Nat) (deltaD : Int) :
    (¬(deltaT > sm._movingTimeThresholdMs ∧
        deltaD.natAbs > sm._movingDistanceDetectionThresholdMm) →
      sm.GetMovingDirection deltaT deltaD = MovingDirection.Stopped) ∧
    (deltaT > sm._movingTimeThresholdMs →
      deltaD.natAbs > sm._movingDistanceDetectionThresholdMm →
      sm.GetMovingDirection deltaT deltaD =
        (if deltaD > 0 then MovingDirection.Backward else MovingDirection.Forward)) ∧
    (deltaD.natAbs > sm._movingDistanceDetectionThresholdMm →
      deltaT ≤ sm._movingTimeThresholdMs →
      sm.GetMovingDirection deltaT deltaD = MovingDirection.Stopped) ∧
    (deltaD = 0 → sm.GetMovingDirection deltaT deltaD = MovingDirection.Stopped) := by
  unfold StateMachine.GetMovingDirection
  refine ⟨?_, ?_, ?_, ?_⟩
  · intro h
    split_ifs with h1 h2 h3
    · exact absurd ⟨h1, h2⟩ h
    · exact absurd ⟨h1, h2⟩ h
    · rfl
    · rfl
  · intro h1 h2
    simp [h1, h2]
  · intro h2 hle
    simp [Nat.not_lt.mpr hle]
  · intro h0
    subst h0
    simp

/-- Claim C1 witness: with thresholds 100 ms / 50 mm, `deltaT = 200` and
`deltaD = 60` classify as `Backward` (retreating). -/
theorem C1_moving_direction_witness :
    smDemo.GetMovingDirection 200 60 = MovingDirection.Backward := by
  have h := (C1_moving_direction smDemo 200 60).2.1 (by decide) (by decide)
  simpa using h

/-- Claim C2: with `near < far < maxCutoff`, the tier command is `AllOff` for
`d > maxCutoff`, `Green` for `far < d ≤ maxCutoff`, `Yellow` for
`near < d ≤ far`, `Red` for `d ≤ near`; and with `near=100, far=300,
maxCutoff=2000`, 50 mm selects `Red` and 2500 mm selects `AllOff`. -/
theorem C2_tier_selection (sm : StateMachine)
    (hnf : sm._nearThresholdMm < sm._farThresholdMm)
    (hfm : sm._farThresholdMm < sm._maxDistanceThresholdMm) (d : Nat) :
    (d > sm._maxDistanceThresholdMm → sm.SetTrafficLights d = LightAct.AllOff) ∧
    (sm._farThresholdMm < d ∧ d ≤ sm._maxDistanceThresholdMm →
      sm.SetTrafficLights d = LightAct.Green) ∧
    (sm._nearThresholdMm < d ∧ d ≤ sm._farThresholdMm →
      sm.SetTrafficLights d = LightAct.Yellow) ∧
    (d ≤ sm._nearThresholdMm → sm.SetTrafficLights d = LightAct.Red) ∧
    smDemo.SetTrafficLights 50 = LightAct.Red ∧
    smDemo.SetTrafficLights 2500 = LightAct.AllOff := by
  unfold StateMachine.SetTrafficLights
  refine ⟨?_, ?_, ?_, ?_, by decide, by decide⟩
  · intro h
    simp [h]
  · rintro ⟨hlo, hhi⟩
    simp [Nat.not_lt.mpr hhi, hlo]
  · rintro ⟨hlo, hhi⟩
    simp [Nat.not_lt.mpr (le_trans hhi (le_of_lt hfm)), Nat.not_lt.mpr hhi, hlo]
  · intro h
    have h1 : ¬ d > sm._nearThresholdMm := Nat.not_lt.mpr h
    have h2 : ¬ d > sm._farThresholdMm := Nat.not_lt.mpr (le_trans h (le_of_lt hnf))
    have h3 : ¬ d > sm._maxDistanceThresholdMm :=
      Nat.not_lt.mpr (le_trans h (le_of_lt (lt_trans hnf hfm)))
    simp [h1, h2, h3]

/-- Claim C2 witness: 150 mm lies in the `near < d ≤ far` band of `smDemo`
and selects `Yellow`. -/
theorem C2_tier_selection_witness :
    smDemo.SetTrafficLights 150 = LightAct.Yellow := by
  have h := (C2_tier_selection smDemo (by decide) (by decide) 150).2.2.1
    ⟨by decide, by decide⟩
  simpa using h

/-- Claim C4 counterexample: the timeout substitute is not a distinct
"no reading" outcome — it is bit-for-bit the numeric reading `UINT32_MAX`
(the two `MeasureDistance` results are equal), and that numeric sentinel
flows straight into the `deltaD` arithmetic (here producing `-301` against a
previous sample of 300 mm), so the sample IS silently a numeric sentinel,
contrary to the data-model promise the claim repeats. -/
theorem C4_timeout_sentinel_counterexample :
    StateMachine.MeasureDistance Result.RESULT_TIMEOUT 0 =
      StateMachine.MeasureDistance Result.RESULT_OK (2 ^ 32 - 1) ∧
    StateMachine.MeasureDistance Result.RESULT_TIMEOUT 0 = Except.ok (2 ^ 32 - 1) ∧
    computeDeltaD (2 ^ 32 - 1) 300 = -301 := by
  decide

/-- Claim C4 (amended): a `Timeout` from the Ranging Driver is absorbed
locally — the sample becomes the numeric out-of-range value `UINT32_MAX` and
the whole update cycle proceeds exactly as if the driver had returned that
value as a successful reading, so the direction/tier logic consumes the
marker as a number (the data-model's "never a numeric sentinel" promise is
not met by the code). -/
theorem C4_timeout_absorbed (sm : StateMachine) (env : Env)
    (h : env.sensorResult = Result.RESULT_TIMEOUT) :
    StateMachine.MeasureDistance env.sensorResult env.sensorDistance =
      Except.ok (2 ^ 32 - 1) ∧
    sm.Update env =
      sm.Update { env with sensorResult := Result.RESULT_OK,
                           sensorDistance := 2 ^ 32 - 1 } := by
  have hmod : (2 ^ 32 - 1) % 2 ^ 32 = 2 ^ 32 - 1 := by norm_num
  constructor
  · rw [h]
    rfl
  · unfold StateMachine.Update
    simp [StateMachine.MeasureDistance, h, hmod]

/-- Claim C4 witness: a concrete timed-out cycle equals the corresponding
explicit `UINT32_MAX` cycle. -/
theorem C4_timeout_absorbed_witness :
    StateMachine.MeasureDistance envTimeout.sensorResult envTimeout.sensorDistance =
      Except.ok (2 ^ 32 - 1) ∧
    smError.Update envTimeout =
      smError.Update { envTimeout with sensorResult := Result.RESULT_OK,
                                       sensorDistance := 2 ^ 32 - 1 } :=
  C4_timeout_absorbed smError envTimeout rfl

/-- Claim C5 (code divergence): `StateMachine::Init` performs no threshold
validation. The configuration `badCfg` violates `near < far`
(`near = 300 ≥ far = 100`), yet `Init` accepts it: it stores the thresholds
verbatim, sets `_initDone`, and enters `Initializing` — the configuration
takes effect instead of being rejected. -/
theorem C5_init_accepts_bad_thresholds :
    badCfg.farThresholdMm < badCfg.nearThresholdMm ∧
    StateMachine.ctor.Init badCfg = Except.ok
      { _initDone := true
        _state := State.Initializing
        _previousState := State.Invalid
        _previousDistance := 2 ^ 32 - 1
        _previousTime := 0
        _maxDistanceThresholdMm := 2000
        _farThresholdMm := 100
        _nearThresholdMm := 300
        _movingDistanceDetectionThresholdMm := 5
        _movingTimeThresholdMs := 100
        _holdingTimeThresholdMs := 3000 } := by
  decide

/-- Claim C6: in `SubjectApproaching` (and symmetrically
`SubjectRetreating`) with the cycle's direction `Stopped`, if `deltaT`
exceeds `holdingTimeThresholdMs` the cycle turns the indicator off (the
`AllOff` command follows the tier command) and moves to `Idle`; otherwise
the state is unchanged. -/
theorem C6_stationary_hold (sm : StateMachine) (env : Env) (distance : Nat)
    (hinit : sm._initDone = true)
    (hmeas : StateMachine.MeasureDistance env.sensorResult env.sensorDistance =
      Except.ok distance)
    (hdir : sm.GetMovingDirection (u32sub env.millis2 sm._previousTime)
      (computeDeltaD distance sm._previousDistance) = MovingDirection.Stopped) :
    (sm._state = State.SubjectApproaching →
      (u32sub env.millis2 sm._previousTime > sm._holdingTimeThresholdMs →
        sm.Update env = Except.ok
          ({ sm with _previousDistance := distance,
                     _previousState := State.SubjectApproaching,
                     _state := State.Idle },
           [sm.SetTrafficLights distance, LightAct.AllOff])) ∧
      (¬ u32sub env.millis2 sm._previousTime > sm._holdingTimeThresholdMs →
        sm.Update env = Except.ok
          ({ sm with _previousDistance := distance,
                     _previousState := State.SubjectApproaching,
                     _state := State.SubjectApproaching },
           [sm.SetTrafficLights distance]))) ∧
    (sm._state = State.SubjectRetreating →
      (u32sub env.millis2 sm._previousTime > sm._holdingTimeThresholdMs →
        sm.Update env = Except.ok
          ({ sm with _previousDistance := distance,
                     _previousState := State.SubjectRetreating,
                     _state := State.Idle },
           [sm.SetTrafficLights distance, LightAct.AllOff])) ∧
      (¬ u32sub env.millis2 sm._previousTime > sm._holdingTimeThresholdMs →
        sm.Update env = Except.ok
          ({ sm with _previousDistance := distance,
                     _previousState := State.SubjectRetreating,
                     _state := State.SubjectRetreating },
           [sm.SetTrafficLights distance]))) := by
  constructor
  · intro hst
    constructor
    · intro hhold
      unfold StateMachine.Update
      simp [hinit, hmeas, hdir, hst, hhold]
    · intro hhold
      unfold StateMachine.Update
      simp [hinit, hmeas, hdir, hst, hhold]
  · intro hst
    constructor
    · intro hhold
      unfold StateMachine.Update
      simp [hinit, hmeas, hdir, hst, hhold]
    · intro hhold
      unfold StateMachine.Update
      simp [hinit, hmeas, hdir, hst, hhold]

/-- Claim C6 witness: a stationary 500 mm reading 4000 ms after the motion
timer reset (holding threshold 3000 ms) turns the lights off and reverts to
`Idle`. -/
theorem C6_stationary_hold_witness :
    smApp.Update envHold = Except.ok
      ({ smApp with _previousDistance := 500,
                    _previousState := State.SubjectApproaching,
                    _state := State.Idle },
       [LightAct.Green, LightAct.AllOff]) := by
  have h := ((C6_stationary_hold smApp envHold 500 (by decide) (by decide)
    (by decide)).1 (by decide)).1 (by decide)
  simpa using h

/-- Claim C7: `Fault` (`State::Error`) is terminal — no update from it ever
returns a successor state, and whenever the measurement itself does not
already escalate (`RESULT_DEV_ERR` triggers the `Reset()` restart first),
the cycle halts by the failed `assert(_state != State::Error)`. -/
theorem C7_fault_terminal (sm : StateMachine) (env : Env)
    (h : sm._state = State.Error) :
    (∀ sm2 acts, sm.Update env ≠ Except.ok (sm2, acts)) ∧
    (env.sensorResult ≠ Result.RESULT_DEV_ERR →
      sm.Update env = Except.error Halt.assertFail) := by
  obtain ⟨r, d, m1, m2, lt⟩ := env
  constructor
  · intro sm2 acts
    cases hinit : sm._initDone <;> cases r <;>
      simp [StateMachine.Update, StateMachine.MeasureDistance, h, hinit]
  · intro hr
    cases hinit : sm._initDone <;> cases r <;>
      simp_all [StateMachine.Update, StateMachine.MeasureDistance]

/-- Claim C7 witness: updating a machine already in `State::Error` with a
successful reading halts on the failed assertion. -/
theorem C7_fault_terminal_witness :
    smError.Update envOk = Except.error Halt.assertFail :=
  (C7_fault_terminal smError envOk rfl).2 (by decide)

/-- Claim C8: with `_initDone = false` — as after construction, and again
after `Deinit` — `MeasureDistance` (either overload) returns
`RESULT_NOT_READY`, leaves the out parameter untouched, and executes no
protocol step (no trigger pulse, no echo polling). -/
theorem C8_not_ready_before_init (ds : DistanceSensor)
    (ambientTemperature : Nat) (echo : Echo) (dIn : Nat)
    (h : ds._initDone = false) :
    ds.MeasureDistanceAtTemp ambientTemperature echo dIn =
      (Result.RESULT_NOT_READY, dIn, ([] : List ProtocolStep)) ∧
    ds.MeasureDistance echo dIn =
      (Result.RESULT_NOT_READY, dIn, ([] : List ProtocolStep)) ∧
    (∀ a b c p q, (DistanceSensor.ctor a b c p q)._initDone = false) ∧
    (∀ ds2 : DistanceSensor, ds2.Deinit._initDone = false) := by
  refine ⟨?_, ?_, fun a b c p q => rfl, fun ds2 => rfl⟩
  · unfold DistanceSensor.MeasureDistanceAtTemp
    simp [h]
  · unfold DistanceSensor.MeasureDistance DistanceSensor.MeasureDistanceAtTemp
    simp [h]

/-- Claim C8 witness: a freshly constructed sensor refuses to measure even a
perfect 580 µs echo. -/
theorem C8_not_ready_before_init_witness :
    dsFresh.MeasureDistance (Echo.pulse 580) 7 =
      (Result.RESULT_NOT_READY, 7, ([] : List ProtocolStep)) :=
  (C8_not_ready_before_init dsFresh 200 (Echo.pulse 580) 7 (by decide)).2.1

/-- Claim C9: `deltaD` is computed with 32-bit wraparound casts — for
`p > d` (within `uint32_t` range, and excluding the single bit pattern
`INT32_MIN` whose mathematical negation is not an `int32_t`) it equals the
negation of `(p - d)` reinterpreted as `int32_t`; with the marker
`p = UINT32_MAX` (which is both the post-`Init` previous distance and the
timeout substitute) a subsequent reading `d` yields `deltaD = d + 1 > 0`,
classified `Backward` (retreating) once both thresholds are exceeded; and
every sample the driver can produce at the fixed 200 deci-degree temperature
satisfies the `d + 1 < 2^31` bound those statements use. -/
theorem C9_delta_wraparound (p d : Nat) :
    (d < p → p < 2 ^ 32 → toInt32 (p - d) ≠ -(2 ^ 31) →
      computeDeltaD d p = -(toInt32 (p - d))) ∧
    (d + 1 < 2 ^ 31 →
      computeDeltaD d (2 ^ 32 - 1) = (d : Int) + 1 ∧
      (0 : Int) < (d : Int) + 1 ∧
      (∀ (sm : StateMachine) (deltaT : Nat),
        deltaT > sm._movingTimeThresholdMs →
        d + 1 > sm._movingDistanceDetectionThresholdMm →
        sm.GetMovingDirection deltaT (computeDeltaD d (2 ^ 32 - 1)) =
          MovingDirection.Backward)) ∧
    StateMachine.ctor._previousDistance = 2 ^ 32 - 1 ∧
    (∀ (sm sm2 : StateMachine) (cfg : Config), sm.Init cfg = Except.ok sm2 →
      sm2._previousDistance = 2 ^ 32 - 1) ∧
    StateMachine.MeasureDistance Result.RESULT_TIMEOUT 0 = Except.ok (2 ^ 32 - 1) ∧
    (∀ w, w < 2 ^ 32 → Time2Distance 200 w + 1 < 2 ^ 31) := by
  refine ⟨?_, ?_, rfl, ?_, rfl, fun w hw => time2Distance_lt w hw⟩
  · intro hdp hp hne
    unfold computeDeltaD
    rw [if_neg (by omega), u32sub_eq p d (le_of_lt hdp) hp]
    have hm := toInt32_mem (p - d)
    rw [show toInt32 (p - d) * (-1) = -(toInt32 (p - d)) by ring]
    exact wrap32_eq_of_mem _ (by omega) (by omega)
  · intro hd
    have hc : computeDeltaD d (2 ^ 32 - 1) = (d : Int) + 1 := by
      unfold computeDeltaD
      rw [if_neg (by omega), u32sub_eq _ _ (by omega) (by omega),
        toInt32_of_big _ (by omega) (by omega)]
      have h1 : ((2 ^ 32 - 1 - d : Nat) : Int) - 2 ^ 32 = -((d : Int) + 1) := by
        omega
      rw [h1, show (-((d : Int) + 1)) * (-1) = (d : Int) + 1 by ring]
      exact wrap32_eq_of_mem _ (by omega) (by omega)
    refine ⟨hc, by omega, fun sm deltaT ht hD => ?_⟩
    unfold StateMachine.GetMovingDirection
    rw [hc]
    have hna : ((d : Int) + 1).natAbs = d + 1 := by omega
    simp [ht, hna, hD, show (0 : Int) < (d : Int) + 1 by omega]
  · intro sm sm2 cfg hinit
    unfold StateMachine.Init at hinit
    split_ifs at hinit <;>
      first
        | exact Except.noConfusion hinit
        | (injection hinit with h2
           subst h2
           rfl)

/-- Claim C9 witness: `500 → 200` gives `deltaD = -300`; from the marker
`UINT32_MAX` a 300 mm reading gives `deltaD = 301` and, with `smDemo`'s
thresholds exceeded, direction `Backward`. -/
theorem C9_delta_wraparound_witness :
    computeDeltaD 200 500 = -300 ∧
    computeDeltaD 300 (2 ^ 32 - 1) = 301 ∧
    smDemo.GetMovingDirection 200 (computeDeltaD 300 (2 ^ 32 - 1)) =
      MovingDirection.Backward := by
  have h1 := (C9_delta_wraparound 500 200).1 (by decide) (by decide) (by decide)
  have h2 := (C9_delta_wraparound 500 300).2.1 (by decide)
  refine ⟨?_, h2.1, h2.2.2 smDemo 200 (by decide) (by decide)⟩
  rw [h1]
  decide

/-- Claim C10: the one-argument `MeasureDistance` overload is the
temperature-compensated overload at the constant 200 deci-degrees (20.0 °C);
the state machine's measurement path goes through that one-argument
overload, so every sample it pulls is temperature-compensated at exactly
200; and a successful echo of width `w` therefore yields the distance
`Time2Distance 200 w`. -/
theorem C10_fixed_temperature (ds : DistanceSensor) (echo : Echo) (dIn : Nat) :
    ds.MeasureDistance echo dIn = ds.MeasureDistanceAtTemp 200 echo dIn ∧
    StateMachine.MeasureDistanceVia ds echo =
      StateMachine.MeasureDistanceViaAtTemp ds 200 echo ∧
    (∀ w, ds._initDone = true → w < 2 ^ 32 →
      ds.MeasureDistance (Echo.pulse w) dIn =
        (Result.RESULT_OK, Time2Distance 200 w,
         [ProtocolStep.triggerPulse, ProtocolStep.echoPoll])) := by
  refine ⟨rfl, rfl, fun w hinit hw => ?_⟩
  unfold DistanceSensor.MeasureDistance DistanceSensor.MeasureDistanceAtTemp
    DistanceSensor.ReadDistance
  simp [hinit]
  congr 1
  omega

/-- Claim C10 witness: the initialized sensor converts a 580 µs echo at the
fixed 200 deci-degree temperature to 99 mm. -/
theorem C10_fixed_temperature_witness :
    dsReady.MeasureDistance (Echo.pulse 580) 0 =
      (Result.RESULT_OK, 99,
       [ProtocolStep.triggerPulse, ProtocolStep.echoPoll]) := by
  have h := (C10_fixed_temperature dsReady (Echo.pulse 580) 0).2.2 580
    (by decide) (by decide)
  rw [h]
  have h99 : Time2Distance 200 580 = 99 := by
    norm_num [Time2Distance, SpeedOfSound]
    rfl
  rw [h99]

end CNEGR
